import Mathlib

/-!
Verification of the proxy forwarding engine of azure-blockchain-connector.

The Go sources embedded here:
- `proxy` package (src/unnamed/part_000): constants, `Params`, the `Provider`
  interface, `Proxy.ServeHTTP` and `isLoopbackAddr`.
- `cmd/flags.go`: `newProxyFromFlags`.

Modelling conventions:
- Bodies are byte lists (`List Nat`); header maps are association lists.
- The external collaborators (http.NewRequest validity, the transport
  `Client().Do`, the gzip reader, the provider's `Modify`) are oracles
  carried in `Env` / `Provider`.
- `ServeHTTP` is translated into a pure function `serveHTTP` returning the
  ordered trace of observable events (response writes, the completion-flag
  set, the single deferred log emission), mirroring Go's LIFO `defer`
  execution: the log defer (registered second) runs before the 502 guard
  (registered first).
- Go's `req1.Header = req.Header` aliases one header map between the inbound
  and outgoing request; the explicit-store translation therefore sets the
  inbound request's final header to the outgoing header after `Modify`.
-/

namespace Abc

/-- Go: proxy constants (src/unnamed/part_000 lines 13-21). -/
def LogWhenOnError : String := "onError"

def LogWhenOnNon200 : String := "onNon200"

def LogWhenAlways : String := "always"

def LogWhatBasic : String := "basic"

def LogWhatDetailed : String := "detailed"

/-- Go: `type Params struct` (src/unnamed/part_000 lines 23-33). Defaults are
Go zero values, as produced by `proxy.Params{}` in flags.go. -/
structure Params where
  Local : String := ""
  Remote : String := ""
  Method : String := ""
  CertPath : String := ""
  Insecure : Bool := false
  Whenlog : String := ""
  Whatlog : String := ""
deriving DecidableEq, Repr

/-- An HTTP request: the fields of `http.Request` that `ServeHTTP` reads or
writes (Method, URL scheme/host/remainder, Header, ContentLength, buffered
Body). -/
structure HReq where
  method : String := ""
  urlScheme : String := ""
  urlHost : String := ""
  urlRest : String := ""
  header : List (String × String) := []
  contentLength : Int := 0
  body : List Nat := []
deriving DecidableEq, Repr

/-- An upstream `http.Response`: the fields `ServeHTTP` reads. -/
structure Response where
  StatusCode : Nat := 200
  Header : List (String × String) := []
  Body : List Nat := []
deriving DecidableEq, Repr

/-- Go `Header.Get key`: first value stored under the key, `""` if absent. -/
def headerGet (h : List (String × String)) (key : String) : String :=
  match h.find? (fun kv => kv.1 == key) with
  | some kv => kv.2
  | none => ""

/-- Outcome of the gzip stage: `gzip.NewReader` failure, `ioutil.ReadAll`
failure, or the decompressed bytes. -/
inductive GzipOutcome
  | decodeErr (msg : String)
  | readErr (msg : String)
  | ok (data : List Nat)
deriving DecidableEq, Repr

/-- Oracles for the external libraries `ServeHTTP` calls: `http.NewRequest`
(`some msg` = construction error), `Client().Do` on the outgoing request, and
the gzip reader chain applied to the upstream body bytes. -/
structure Env where
  newRequest : String → String → Option String
  doResult : HReq → Except String Response
  gunzip : List Nat → GzipOutcome

/-- Go: the `Provider` interface (src/unnamed/part_000 lines 35-39).
`RequestAccess` runs at startup and `Client` is folded into `Env.doResult`;
only `Modify`, the per-request integration point, is needed here. It may
rewrite any field of the outgoing request, in place. -/
structure Provider where
  modify : Params → HReq → HReq

/-- One `logStrBuilder.WriteString` call, tagged by call site. -/
inductive LogEntry
  | requesting (method url : String)
  | requestBody (body : List Nat)
  | newReqError (msg : String)
  | transportError (msg : String)
  | gzipDecodeError (msg : String)
  | gzipReadError (msg : String)
  | statusLine (status : Nat)
  | responseBody (body : List Nat)
deriving DecidableEq, Repr

/-- Observable events of one `ServeHTTP` run, in order: `rw.WriteHeader`,
`rw.Write`, the `completeFlag = true` assignment, and the deferred
`fmt.Println` of the accumulated log block. -/
inductive Ev
  | writeHeader (status : Nat)
  | write (body : List Nat)
  | setComplete
  | emitLog (entries : List LogEntry)
deriving DecidableEq, Repr

/-- Result of one `ServeHTTP` run: the event trace, the final values of the
two flags' state, the log accumulator, the inbound request's header map after
the run (aliased with the outgoing request's), the outgoing request as built
and as executed, the upstream (status, processed body) when reached, and the
response headers explicitly set on the inbound writer (never any). -/
structure ServeOut where
  trace : List Ev
  completeFlag : Bool
  logEntries : List LogEntry
  inboundHeaderFinal : List (String × String)
  builtReq : Option HReq
  executedReq : Option HReq
  upstream : Option (Nat × List Nat)
  headersSet : List (String × String)
deriving DecidableEq, Repr

/-- Go: `isLoopbackAddr` uses `net.SplitHostPort`; these two helpers model
byte search (`last`, `byteIndex`) over the character list. -/
def idxOf? (s : List Char) (c : Char) : Option Nat :=
  match s with
  | [] => none
  | a :: rest =>
    if a = c then some 0 else (idxOf? rest c).map (fun i => i + 1)

/-- Index of the last occurrence of `c` in `s` (Go's `last`). -/
def lastIdx? (s : List Char) (c : Char) : Option Nat :=
  match s with
  | [] => none
  | a :: rest =>
    match lastIdx? rest c with
    | some i => some (i + 1)
    | none => if a = c then some 0 else none

/-- Go: `net.SplitHostPort` (net/ipsock.go), faithfully: the port starts after
the last colon; a leading `[` demands `]` just before that colon; a bare host
may contain no colon and no brackets. -/
def splitHostPort (hostPort : String) : Except String (String × String) :=
  let s := hostPort.data
  match lastIdx? s ':' with
  | none => Except.error "missing port in address"
  | some i =>
    if s.head? = some '[' then
      match idxOf? s ']' with
      | none => Except.error "missing bracket in address"
      | some e =>
        if e + 1 = s.length then Except.error "missing port in address"
        else if e + 1 = i then
          if (idxOf? (s.drop 1) '[').isSome then
            Except.error "missing bracket in address"
          else if (idxOf? (s.drop (e + 1)) ']').isSome then
            Except.error "missing bracket in address"
          else
            Except.ok (String.mk ((s.drop 1).take (e - 1)),
                       String.mk (s.drop (i + 1)))
        else if s.get? (e + 1) = some ':' then
          Except.error "too many colons in address"
        else Except.error "missing port in address"
    else
      if (idxOf? (s.take i) ':').isSome then
        Except.error "too many colons in address"
      else if (idxOf? s '[').isSome then
        Except.error "missing bracket in address"
      else if (idxOf? s ']').isSome then
        Except.error "missing bracket in address"
      else
        Except.ok (String.mk (s.take i), String.mk (s.drop (i + 1)))

/-- The host portion Go extracts: `host, _, _ := net.SplitHostPort(addr)`
yields `""` for host when `SplitHostPort` errors. -/
def hostPortionOf (addr : String) : String :=
  match splitHostPort addr with
  | Except.ok hp => hp.1
  | Except.error _ => ""

/-- Go: `isLoopbackAddr` (src/unnamed/part_000 lines 158-167). -/
def isLoopbackAddr (addr : String) : Bool :=
  let hosts : List String := ["localhost", "127.0.0.1", "::1"]
  let host := hostPortionOf addr
  hosts.any (fun h => h == host)

/-- Scheme after the rewrite of lines 81-86: `https`, downgraded to `http`
when the (already rewritten) host is a loopback address. -/
def rewrittenScheme (params : Params) : String :=
  if isLoopbackAddr params.Remote then "http" else "https"

/-- Go: `req.URL.String()` after the rewrite. -/
def outgoingURL (params : Params) (req : HReq) : String :=
  rewrittenScheme params ++ "://" ++ params.Remote ++ req.urlRest

/-- Byte-wise lexicographic `<` on strings, as Go compares strings (UTF-8 is
order-preserving, so code-point order coincides with byte order). -/
def charListLess (a b : List Char) : Bool :=
  match a, b with
  | [], [] => false
  | [], _ :: _ => true
  | _ :: _, [] => false
  | x :: xs, y :: ys =>
    if x.toNat < y.toNat then true
    else if y.toNat < x.toNat then false
    else charListLess xs ys

/-- Go string `>=` is lexicographic; line 89 checks `params.Whatlog >= "detailed"`. -/
def whatlogDetailed (params : Params) : Bool :=
  !(charListLess params.Whatlog.data LogWhatDetailed.data)

/-- Log entries accumulated by lines 88-91 before the outgoing request is built. -/
def requestLog (params : Params) (req : HReq) : List LogEntry :=
  [LogEntry.requesting req.method (outgoingURL params req)] ++
    (if whatlogDetailed params then [LogEntry.requestBody req.body] else [])

/-- Go: lines 94-101. `http.NewRequest(req.Method, url, buf)` followed by the
explicit copies `req1.ContentLength = req.ContentLength`,
`req1.Header = req.Header` (the alias), `req1.Method = req.Method`. -/
def buildOutgoing (params : Params) (req : HReq) : HReq :=
  { method := req.method
    urlScheme := rewrittenScheme params
    urlHost := params.Remote
    urlRest := req.urlRest
    header := req.header
    contentLength := req.contentLength
    body := req.body }

/-- Go: lines 115-132. The body is routed through the gzip reader exactly when
`response.Header.Get("Content-Encoding")` is `"gzip"`; every other value hits
the `default` branch, which buffers the raw body. -/
def decodeBody (env : Env) (resp : Response) : GzipOutcome :=
  if headerGet resp.Header "Content-Encoding" == "gzip" then
    env.gunzip resp.Body
  else GzipOutcome.ok resp.Body

/-- Go: lines 147-155. `logFlag` is cleared when `Whenlog == "onError"`, or
when `Whenlog == "onNon200"` and the status is exactly 200. -/
def whenlogSuppresses (params : Params) (status : Nat) : Bool :=
  (params.Whenlog == LogWhenOnError) ||
    (params.Whenlog == LogWhenOnNon200 && status == 200)

/-- Abort exit: the log defer prints (logFlag still true), then the guard
defer sees completeFlag false and writes the bare 502. -/
def abortOut (log : List LogEntry) (hdr : List (String × String))
    (built executed : Option HReq) : ServeOut :=
  { trace := [Ev.emitLog log, Ev.writeHeader 502]
    completeFlag := false
    logEntries := log
    inboundHeaderFinal := hdr
    builtReq := built
    executedReq := executed
    upstream := none
    headersSet := [] }

/-- Go: `Proxy.ServeHTTP` (src/unnamed/part_000 lines 46-156), as a pure
function of the params, the provider, the library oracles and the inbound
request. -/
def serveHTTP (params : Params) (p : Provider) (env : Env) (req : HReq) :
    ServeOut :=
  let log1 := requestLog params req
  match env.newRequest req.method (outgoingURL params req) with
  | some msg =>
    abortOut (log1 ++ [LogEntry.newReqError msg]) req.header none none
  | none =>
    let req1 := buildOutgoing params req
    let req2 := p.modify params req1
    match env.doResult req2 with
    | Except.error msg =>
      abortOut (log1 ++ [LogEntry.transportError msg]) req2.header
        (some req1) (some req2)
    | Except.ok resp =>
      match decodeBody env resp with
      | GzipOutcome.decodeErr msg =>
        abortOut (log1 ++ [LogEntry.gzipDecodeError msg]) req2.header
          (some req1) (some req2)
      | GzipOutcome.readErr msg =>
        abortOut (log1 ++ [LogEntry.gzipReadError msg]) req2.header
          (some req1) (some req2)
      | GzipOutcome.ok data =>
        let log := log1 ++ [LogEntry.statusLine resp.StatusCode] ++
          (if whatlogDetailed params then [LogEntry.responseBody data] else [])
        let suppressed := whenlogSuppresses params resp.StatusCode
        { trace := [Ev.writeHeader resp.StatusCode, Ev.write data,
              Ev.setComplete] ++
            (if suppressed then [] else [Ev.emitLog log])
          completeFlag := true
          logEntries := log
          inboundHeaderFinal := req2.header
          builtReq := some req1
          executedReq := some req2
          upstream := some (resp.StatusCode, data)
          headersSet := [] }

/-- The response writes among a trace's events. -/
def isRespWrite (e : Ev) : Bool :=
  match e with
  | Ev.writeHeader _ => true
  | Ev.write _ => true
  | _ => false

def respWrites (t : List Ev) : List Ev := t.filter isRespWrite

/-- Count of deferred log emissions in a trace. -/
def emitCount (t : List Ev) : Nat :=
  (t.filter (fun e =>
    match e with
    | Ev.emitLog _ => true
    | _ => false)).length

/-- Count of completion-flag set events in a trace. -/
def completeCount (t : List Ev) : Nat :=
  (t.filter (fun e =>
    match e with
    | Ev.setComplete => true
    | _ => false)).length

/-- Modelled from the spec: the method selector constants of the proxy
package (`MethodBasicAuth` etc.) are referenced by flags.go but their defining
file is not under src/; the flag usage text names the values: basic auth
(basic), authorization code (authcode), client credentials (client), device
flow (device). -/
def MethodBasicAuth : String := "basic"

def MethodOAuthAuthCode : String := "authcode"

def MethodOAuthClientCredentials : String := "client"

def MethodOAuthDeviceFlow : String := "device"

/-- Go: `defaultLocalAddr` (flags.go line 17). -/
def defaultLocalAddr : String := "127.0.0.1:3100"

/-- The command-line flag values after `flag.Parse()`; defaults are the
declared flag defaults (flags.go lines 38-67). -/
structure Flags where
  method : String := MethodBasicAuth
  localAddr : String := defaultLocalAddr
  remote : String := ""
  cert : String := ""
  insecure : Bool := false
  username : String := ""
  password : String := ""
  clientID : String := ""
  tenantID : String := ""
  clientSecret : String := ""
  useWebview : Bool := true
  authSvcAddr : String := defaultLocalAddr
  whenlogstr : String := LogWhenOnError
  whatlogstr : String := LogWhatBasic
  debugmode : Bool := false
deriving DecidableEq, Repr

/-- Go: `checkStr` (flags.go lines 26-33) exits with -1 when any string is
empty; here `true` means every string is non-empty and the run continues. -/
def checkStr (ss : List String) : Bool :=
  ss.all (fun s => !(s == ""))

/-- Go: `newProxyFromFlags` (flags.go lines 35-180), as a function of the
parsed flag values to either an exit code or the `Params` the returned proxy
carries. Provider construction is modelled only through the `checkStr`
validations its branches perform; the webview/redirect-URL block touches no
field read later. The validated `whenlogstr`/`whatlogstr` are copied into
`params` only in the `debugmode` branch (lines 92-95). -/
def newProxyFromFlags (f : Flags) : Except Int Params :=
  let params0 : Params :=
    { Local := f.localAddr, Remote := f.remote, Method := f.method,
      CertPath := f.cert, Insecure := f.insecure,
      Whenlog := "", Whatlog := "" }
  if !(f.method == MethodBasicAuth || f.method == MethodOAuthAuthCode ||
       f.method == MethodOAuthDeviceFlow ||
       f.method == MethodOAuthClientCredentials) then
    Except.error (-1)
  else if !(f.whenlogstr == LogWhenOnError || f.whenlogstr == LogWhenOnNon200 ||
            f.whenlogstr == LogWhenAlways) then
    Except.error (-1)
  else if !(f.whatlogstr == LogWhatBasic || f.whatlogstr == LogWhatDetailed) then
    Except.error (-1)
  else
    let params :=
      if f.debugmode then
        { params0 with Whenlog := LogWhenAlways, Whatlog := LogWhatDetailed }
      else params0
    if !(checkStr [params.Local, params.Remote]) then Except.error (-1)
    else if f.method == MethodOAuthAuthCode then
      if !(checkStr [f.clientID, f.tenantID]) then Except.error (-1)
      else Except.ok params
    else if f.method == MethodOAuthClientCredentials then
      if !(checkStr [f.clientID, f.clientSecret]) then Except.error (-1)
      else Except.ok params
    else if f.method == MethodOAuthDeviceFlow then
      if !(checkStr [f.clientID, f.tenantID]) then Except.error (-1)
      else Except.ok params
    else
      if !(checkStr [params.Remote, f.username, f.password]) then
        Except.error (-1)
      else Except.ok params

/-- The outgoing request at execution time: the built request after the
provider's `Modify` ran on it (lines 94-103). -/
def req2Of (params : Params) (p : Provider) (req : HReq) : HReq :=
  p.modify params (buildOutgoing params req)

/-- The log accumulator at handler exit on the success path. -/
def successLog (params : Params) (req : HReq) (resp : Response)
    (data : List Nat) : List LogEntry :=
  requestLog params req ++ [LogEntry.statusLine resp.StatusCode] ++
    (if whatlogDetailed params then [LogEntry.responseBody data] else [])

/-- The upstream status a run reached, if any. -/
def upstreamStatus (out : ServeOut) : Option Nat := out.upstream.map Prod.fst

/-- Log entries that carry a request or response body. -/
def isBodyEntry (e : LogEntry) : Bool :=
  match e with
  | LogEntry.requestBody _ => true
  | LogEntry.responseBody _ => true
  | _ => false

/-- Concrete provider for instantiations: attaches nothing. -/
def wProv : Provider := ⟨fun _ r => r⟩

/-- Concrete upstream response: 404 with body bytes `hi`, no headers. -/
def wResp : Response := { StatusCode := 404, Header := [], Body := [104, 105] }

/-- Concrete oracle set: construction succeeds, transport returns `wResp`,
gzip never consulted. -/
def wEnv : Env :=
  { newRequest := fun _ _ => none
    doResult := fun _ => Except.ok wResp
    gunzip := fun b => GzipOutcome.ok b }

/-- Concrete inbound request. -/
def wReq : HReq :=
  { method := "GET", urlRest := "/foo", header := [("A", "1")],
    contentLength := 2, body := [1, 2] }

/-- Concrete params with validated logging policy values. -/
def wParams : Params :=
  { Remote := "example.com:443", Whenlog := "onNon200", Whatlog := "basic" }

/-- Concrete gzip-encoded upstream response. -/
def wRespGz : Response :=
  { StatusCode := 200, Header := [("Content-Encoding", "gzip")], Body := [1] }

/-- Concrete oracle set whose gzip reader fails on construction. -/
def wEnvGz : Env :=
  { newRequest := fun _ _ => none
    doResult := fun _ => Except.ok wRespGz
    gunzip := fun _ => GzipOutcome.decodeErr "bad" }

/-- Concrete flag values: basic auth with credentials, debug mode off. -/
def wFlags : Flags :=
  { remote := "example.com:443", username := "u", password := "pw" }

/-- The `Params` record `newProxyFromFlags` produces from `wFlags`. -/
def wParamsBasic : Params :=
  { Local := defaultLocalAddr, Remote := "example.com:443",
    Method := MethodBasicAuth }

end Abc

namespace Abc

/-- Characterization of `serveHTTP` when `http.NewRequest` fails: the run
aborts through the two defers. -/
theorem serve_newReqErr {params : Params} {p : Provider} {env : Env}
    {req : HReq} {msg : String}
    (h1 : env.newRequest req.method (outgoingURL params req) = some msg) :
    serveHTTP params p env req =
      abortOut (requestLog params req ++ [LogEntry.newReqError msg])
        req.header none none := by
  simp only [serveHTTP, h1]

/-- Characterization of `serveHTTP` when `Client().Do` fails. -/
theorem serve_transportErr {params : Params} {p : Provider} {env : Env}
    {req : HReq} {msg : String}
    (h1 : env.newRequest req.method (outgoingURL params req) = none)
    (h2 : env.doResult (req2Of params p req) = Except.error msg) :
    serveHTTP params p env req =
      abortOut (requestLog params req ++ [LogEntry.transportError msg])
        (req2Of params p req).header
        (some (buildOutgoing params req)) (some (req2Of params p req)) := by
  simp only [serveHTTP, req2Of] at h2 ⊢
  simp only [h1, h2]

/-- Characterization of `serveHTTP` when `gzip.NewReader` fails. -/
theorem serve_decodeErr {params : Params} {p : Provider} {env : Env}
    {req : HReq} {resp : Response} {msg : String}
    (h1 : env.newRequest req.method (outgoingURL params req) = none)
    (h2 : env.doResult (req2Of params p req) = Except.ok resp)
    (h3 : decodeBody env resp = GzipOutcome.decodeErr msg) :
    serveHTTP params p env req =
      abortOut (requestLog params req ++ [LogEntry.gzipDecodeError msg])
        (req2Of params p req).header
        (some (buildOutgoing params req)) (some (req2Of params p req)) := by
  simp only [serveHTTP, req2Of] at h2 ⊢
  simp only [h1, h2, h3]

/-- Characterization of `serveHTTP` when reading gzip data fails. -/
theorem serve_readErr {params : Params} {p : Provider} {env : Env}
    {req : HReq} {resp : Response} {msg : String}
    (h1 : env.newRequest req.method (outgoingURL params req) = none)
    (h2 : env.doResult (req2Of params p req) = Except.ok resp)
    (h3 : decodeBody env resp = GzipOutcome.readErr msg) :
    serveHTTP params p env req =
      abortOut (requestLog params req ++ [LogEntry.gzipReadError msg])
        (req2Of params p req).header
        (some (buildOutgoing params req)) (some (req2Of params p req)) := by
  simp only [serveHTTP, req2Of] at h2 ⊢
  simp only [h1, h2, h3]

/-- Characterization of `serveHTTP` on the success path. -/
theorem serve_ok {params : Params} {p : Provider} {env : Env}
    {req : HReq} {resp : Response} {data : List Nat}
    (h1 : env.newRequest req.method (outgoingURL params req) = none)
    (h2 : env.doResult (req2Of params p req) = Except.ok resp)
    (h3 : decodeBody env resp = GzipOutcome.ok data) :
    serveHTTP params p env req =
      { trace := [Ev.writeHeader resp.StatusCode, Ev.write data,
            Ev.setComplete] ++
          (if whenlogSuppresses params resp.StatusCode then []
           else [Ev.emitLog (successLog params req resp data)])
        completeFlag := true
        logEntries := successLog params req resp data
        inboundHeaderFinal := (req2Of params p req).header
        builtReq := some (buildOutgoing params req)
        executedReq := some (req2Of params p req)
        upstream := some (resp.StatusCode, data)
        headersSet := [] } := by
  simp only [serveHTTP, req2Of, successLog] at h2 ⊢
  simp only [h1, h2, h3]

/-- Constant facts about the policy strings, used to evaluate the `Whenlog`
comparisons of lines 148-155. -/
theorem whenNe1 : LogWhenOnError ≠ LogWhenOnNon200 := by decide

theorem whenNe2 : LogWhenOnError ≠ LogWhenAlways := by decide

theorem whenNe3 : LogWhenOnNon200 ≠ LogWhenAlways := by decide

theorem beq2 : (LogWhenAlways == LogWhenOnError) = false := by decide

theorem beq3 : (LogWhenAlways == LogWhenOnNon200) = false := by decide

theorem beq4 : (LogWhenOnNon200 == LogWhenOnError) = false := by decide

theorem beqE1 : (("" : String) == LogWhenOnError) = false := by decide

theorem beqE2 : (("" : String) == LogWhenOnNon200) = false := by decide

theorem detE : (!(charListLess ("" : String).data LogWhatDetailed.data)) = false := by
  decide

/-- Claim C1: for every inbound request handled by `Proxy.ServeHTTP`, exactly
one terminal response is written: if the handler aborts before the final
response write (construction, transport, or gzip decode/read failure), the
completion flag is still false and the deferred guard writes HTTP 502 with an
empty body; otherwise exactly the proxied response is written and no guard 502
is emitted. -/
theorem c1_exactly_one_terminal_response (params : Params) (p : Provider)
    (env : Env) (req : HReq) :
    ((serveHTTP params p env req).completeFlag = false ∧
      respWrites (serveHTTP params p env req).trace = [Ev.writeHeader 502]) ∨
    ((serveHTTP params p env req).completeFlag = true ∧
      ∃ st b, (serveHTTP params p env req).upstream = some (st, b) ∧
        respWrites (serveHTTP params p env req).trace =
          [Ev.writeHeader st, Ev.write b]) := by
  cases h1 : env.newRequest req.method (outgoingURL params req) with
  | some msg =>
    left
    rw [serve_newReqErr h1]
    simp [abortOut, respWrites, isRespWrite]
  | none =>
    cases h2 : env.doResult (req2Of params p req) with
    | error msg =>
      left
      rw [serve_transportErr h1 h2]
      simp [abortOut, respWrites, isRespWrite]
    | ok resp =>
      cases h3 : decodeBody env resp with
      | decodeErr msg =>
        left
        rw [serve_decodeErr h1 h2 h3]
        simp [abortOut, respWrites, isRespWrite]
      | readErr msg =>
        left
        rw [serve_readErr h1 h2 h3]
        simp [abortOut, respWrites, isRespWrite]
      | ok data =>
        right
        rw [serve_ok h1 h2 h3]
        refine ⟨rfl, resp.StatusCode, data, rfl, ?_⟩
        cases hs : whenlogSuppresses params resp.StatusCode <;>
          simp [respWrites, isRespWrite, hs]

/-- Claim C2: for every request whose outgoing call returns a response, the
status code written to the inbound caller equals the upstream status code and
the body written equals the upstream body byte-for-byte (after gzip
decompression when Content-Encoding is gzip), with no upstream headers
propagated. -/
theorem c2_success_passthrough (params : Params) (p : Provider) (env : Env)
    (req : HReq) (resp : Response) (data : List Nat)
    (h1 : env.newRequest req.method (outgoingURL params req) = none)
    (h2 : env.doResult (req2Of params p req) = Except.ok resp)
    (h3 : decodeBody env resp = GzipOutcome.ok data) :
    respWrites (serveHTTP params p env req).trace =
      [Ev.writeHeader resp.StatusCode, Ev.write data] ∧
    (serveHTTP params p env req).upstream = some (resp.StatusCode, data) ∧
    (serveHTTP params p env req).headersSet = [] ∧
    (headerGet resp.Header "Content-Encoding" = "gzip" →
      env.gunzip resp.Body = GzipOutcome.ok data) ∧
    (¬ headerGet resp.Header "Content-Encoding" = "gzip" → data = resp.Body) := by
  rw [serve_ok h1 h2 h3]
  refine ⟨?_, rfl, rfl, ?_, ?_⟩
  · cases hs : whenlogSuppresses params resp.StatusCode <;>
      simp [respWrites, isRespWrite, hs]
  · intro hg
    simp [decodeBody, hg] at h3
    exact h3
  · intro hg
    simp only [decodeBody] at h3
    rw [if_neg] at h3
    · exact (GzipOutcome.ok.inj h3).symm
    · simp [hg]

/-- Witness for C2: a concrete 404 upstream with body bytes `hi` and no
Content-Encoding header is passed through byte-for-byte. -/
theorem c2_success_passthrough_holds :
    respWrites (serveHTTP wParams wProv wEnv wReq).trace =
      [Ev.writeHeader 404, Ev.write [104, 105]] :=
  (c2_success_passthrough wParams wProv wEnv wReq wResp [104, 105]
    rfl rfl rfl).1

/-- Claim C3: the accumulated log block is emitted exactly once at handler
exit, and (for the validated Whenlog policies) it is emitted if and only if
the request aborted before the final response write, or Whenlog is `always`,
or Whenlog is `onNon200` and the final upstream status is not exactly 200;
`onError` suppresses the log for every request that completes the response
write, including non-2xx statuses. -/
theorem c3_log_policy (params : Params) (p : Provider) (env : Env) (req : HReq)
    (hvalid : params.Whenlog = LogWhenOnError ∨ params.Whenlog = LogWhenOnNon200 ∨
      params.Whenlog = LogWhenAlways) :
    emitCount (serveHTTP params p env req).trace ≤ 1 ∧
    (emitCount (serveHTTP params p env req).trace = 1 ↔
      ((serveHTTP params p env req).completeFlag = false ∨
       params.Whenlog = LogWhenAlways ∨
       (params.Whenlog = LogWhenOnNon200 ∧
         upstreamStatus (serveHTTP params p env req) ≠ some 200))) := by
  cases h1 : env.newRequest req.method (outgoingURL params req) with
  | some msg =>
    rw [serve_newReqErr h1]
    simp [abortOut, emitCount]
  | none =>
    cases h2 : env.doResult (req2Of params p req) with
    | error msg =>
      rw [serve_transportErr h1 h2]
      simp [abortOut, emitCount]
    | ok resp =>
      cases h3 : decodeBody env resp with
      | decodeErr msg =>
        rw [serve_decodeErr h1 h2 h3]
        simp [abortOut, emitCount]
      | readErr msg =>
        rw [serve_readErr h1 h2 h3]
        simp [abortOut, emitCount]
      | ok data =>
        rw [serve_ok h1 h2 h3]
        rcases hvalid with hv | hv | hv
        · have hs : whenlogSuppresses params resp.StatusCode = true := by
            simp [whenlogSuppresses, hv]
          simp [hs, emitCount, upstreamStatus, hv, whenNe1, whenNe2]
        · by_cases hst : resp.StatusCode = 200
          · have hs : whenlogSuppresses params 200 = true := by
              simp [whenlogSuppresses, hv, beq4]
            simp [hs, emitCount, upstreamStatus, hv, hst, whenNe3]
          · have hs : whenlogSuppresses params resp.StatusCode = false := by
              simp [whenlogSuppresses, hv, hst, beq4]
            simp [hs, emitCount, upstreamStatus, hv, hst, whenNe3]
        · have hs : whenlogSuppresses params resp.StatusCode = false := by
            simp [whenlogSuppresses, hv, beq2, beq3]
          simp [hs, emitCount, upstreamStatus, hv]

/-- Witness for C3: `Whenlog = onNon200` with a concrete upstream 404. -/
theorem c3_log_policy_holds :
    emitCount (serveHTTP wParams wProv wEnv wReq).trace ≤ 1 ∧
    (emitCount (serveHTTP wParams wProv wEnv wReq).trace = 1 ↔
      ((serveHTTP wParams wProv wEnv wReq).completeFlag = false ∨
       wParams.Whenlog = LogWhenAlways ∨
       (wParams.Whenlog = LogWhenOnNon200 ∧
         upstreamStatus (serveHTTP wParams wProv wEnv wReq) ≠ some 200))) :=
  c3_log_policy wParams wProv wEnv wReq (Or.inr (Or.inl rfl))

/-- Claim C4: for every flag configuration with `-debugmode` false that
`newProxyFromFlags` accepts, the returned `Params` carries empty `Whenlog` and
`Whatlog` — the validated `-whenlog`/`-whatlog` values are never copied in —
so the served proxy emits a log block for every request (neither suppression
branch matches the empty string) and never logs bodies, regardless of the
flags given. -/
theorem c4_log_flags_dropped (f : Flags) (params : Params) (p : Provider)
    (env : Env) (req : HReq)
    (hok : newProxyFromFlags f = Except.ok params)
    (hdbg : f.debugmode = false) :
    params.Whenlog = "" ∧ params.Whatlog = "" ∧
    emitCount (serveHTTP params p env req).trace = 1 ∧
    (serveHTTP params p env req).logEntries.all
      (fun e => !(isBodyEntry e)) = true := by
  have hP : params.Whenlog = "" ∧ params.Whatlog = "" := by
    simp only [newProxyFromFlags, hdbg, Bool.false_eq_true, if_false] at hok
    repeat' split at hok
    all_goals simp_all
    all_goals (obtain rfl := hok; exact ⟨rfl, rfl⟩)
  have hsup : ∀ s, whenlogSuppresses params s = false := by
    intro s
    simp [whenlogSuppresses, hP.1, beqE1, beqE2]
  have hdet : whatlogDetailed params = false := by
    simp only [whatlogDetailed, hP.2]
    exact detE
  refine ⟨hP.1, hP.2, ?_, ?_⟩
  · cases h1 : env.newRequest req.method (outgoingURL params req) with
    | some msg =>
      rw [serve_newReqErr h1]
      simp [abortOut, emitCount]
    | none =>
      cases h2 : env.doResult (req2Of params p req) with
      | error msg =>
        rw [serve_transportErr h1 h2]
        simp [abortOut, emitCount]
      | ok resp =>
        cases h3 : decodeBody env resp with
        | decodeErr msg =>
          rw [serve_decodeErr h1 h2 h3]
          simp [abortOut, emitCount]
        | readErr msg =>
          rw [serve_readErr h1 h2 h3]
          simp [abortOut, emitCount]
        | ok data =>
          rw [serve_ok h1 h2 h3]
          simp [emitCount, hsup]
  · cases h1 : env.newRequest req.method (outgoingURL params req) with
    | some msg =>
      rw [serve_newReqErr h1]
      simp [abortOut, requestLog, hdet, isBodyEntry]
    | none =>
      cases h2 : env.doResult (req2Of params p req) with
      | error msg =>
        rw [serve_transportErr h1 h2]
        simp [abortOut, requestLog, hdet, isBodyEntry]
      | ok resp =>
        cases h3 : decodeBody env resp with
        | decodeErr msg =>
          rw [serve_decodeErr h1 h2 h3]
          simp [abortOut, requestLog, hdet, isBodyEntry]
        | readErr msg =>
          rw [serve_readErr h1 h2 h3]
          simp [abortOut, requestLog, hdet, isBodyEntry]
        | ok data =>
          rw [serve_ok h1 h2 h3]
          simp [successLog, requestLog, hdet, isBodyEntry]

/-- Witness for C4: basic-auth flags with debug mode off produce `Params`
with empty log policies, and a concrete run emits its log block. -/
theorem c4_log_flags_dropped_holds :
    wParamsBasic.Whenlog = "" ∧ wParamsBasic.Whatlog = "" ∧
    emitCount (serveHTTP wParamsBasic wProv wEnv wReq).trace = 1 ∧
    (serveHTTP wParamsBasic wProv wEnv wReq).logEntries.all
      (fun e => !(isBodyEntry e)) = true :=
  c4_log_flags_dropped wFlags wParamsBasic wProv wEnv wReq rfl rfl

/-- Claim C5: for every request, the completion flag starts false and
transitions false-to-true at most once; it becomes true only after the final
response write to the inbound caller, and on every abort path it remains
false at handler exit. -/
theorem c5_completion_flag (params : Params) (p : Provider)
    (env : Env) (req : HReq) :
    completeCount (serveHTTP params p env req).trace ≤ 1 ∧
    ((serveHTTP params p env req).completeFlag = true ↔
      completeCount (serveHTTP params p env req).trace = 1) ∧
    (((serveHTTP params p env req).completeFlag = false ∧
        Ev.setComplete ∉ (serveHTTP params p env req).trace) ∨
     ((serveHTTP params p env req).completeFlag = true ∧
      ∃ st b, (serveHTTP params p env req).upstream = some (st, b) ∧
        ((serveHTTP params p env req).trace =
            [Ev.writeHeader st, Ev.write b, Ev.setComplete] ∨
         (serveHTTP params p env req).trace =
            [Ev.writeHeader st, Ev.write b, Ev.setComplete,
             Ev.emitLog (serveHTTP params p env req).logEntries]))) := by
  cases h1 : env.newRequest req.method (outgoingURL params req) with
  | some msg =>
    rw [serve_newReqErr h1]
    refine ⟨by simp [abortOut, completeCount], by simp [abortOut, completeCount], ?_⟩
    left
    simp [abortOut]
  | none =>
    cases h2 : env.doResult (req2Of params p req) with
    | error msg =>
      rw [serve_transportErr h1 h2]
      refine ⟨by simp [abortOut, completeCount], by simp [abortOut, completeCount], ?_⟩
      left
      simp [abortOut]
    | ok resp =>
      cases h3 : decodeBody env resp with
      | decodeErr msg =>
        rw [serve_decodeErr h1 h2 h3]
        refine ⟨by simp [abortOut, completeCount], by simp [abortOut, completeCount], ?_⟩
        left
        simp [abortOut]
      | readErr msg =>
        rw [serve_readErr h1 h2 h3]
        refine ⟨by simp [abortOut, completeCount], by simp [abortOut, completeCount], ?_⟩
        left
        simp [abortOut]
      | ok data =>
        rw [serve_ok h1 h2 h3]
        cases hs : whenlogSuppresses params resp.StatusCode <;>
          · refine ⟨by simp [completeCount], by simp [completeCount], ?_⟩
            right
            refine ⟨rfl, resp.StatusCode, data, rfl, ?_⟩
            simp

/-- Claim C6: the upstream body is decompressed before buffering if and only
if the Content-Encoding header value is exactly `gzip`; any other value,
including an absent header, passes the body through unmodified; and a gzip
decode or read failure aborts the request exactly like a transport failure:
no body written, guard emits 502. -/
theorem c6_gzip_branch (params : Params) (p : Provider) (env : Env)
    (req : HReq) (resp : Response) (msg : String) :
    (¬ headerGet resp.Header "Content-Encoding" = "gzip" →
      decodeBody env resp = GzipOutcome.ok resp.Body) ∧
    (headerGet resp.Header "Content-Encoding" = "gzip" →
      decodeBody env resp = env.gunzip resp.Body) ∧
    (env.newRequest req.method (outgoingURL params req) = none →
     env.doResult (req2Of params p req) = Except.ok resp →
     (decodeBody env resp = GzipOutcome.decodeErr msg ∨
      decodeBody env resp = GzipOutcome.readErr msg) →
     (serveHTTP params p env req).completeFlag = false ∧
     respWrites (serveHTTP params p env req).trace = [Ev.writeHeader 502]) := by
  refine ⟨fun hg => by simp [decodeBody, hg], fun hg => by simp [decodeBody, hg], ?_⟩
  intro h1 h2 h3
  rcases h3 with h3 | h3
  · rw [serve_decodeErr h1 h2 h3]
    simp [abortOut, respWrites, isRespWrite]
  · rw [serve_readErr h1 h2 h3]
    simp [abortOut, respWrites, isRespWrite]

/-- Witness for C6: a concrete gzip-encoded response whose reader fails on
construction makes the run abort with a bare 502. -/
theorem c6_gzip_branch_holds :
    (serveHTTP wParams wProv wEnvGz wReq).completeFlag = false ∧
    respWrites (serveHTTP wParams wProv wEnvGz wReq).trace =
      [Ev.writeHeader 502] :=
  (c6_gzip_branch wParams wProv wEnvGz wReq wRespGz "bad").2.2 rfl rfl
    (Or.inl rfl)

/-- Claim C7: for every host-and-port string, `isLoopbackAddr` returns true
exactly when the host portion equals one of `localhost`, `127.0.0.1`, `::1`,
and returns false without failing on unparsable input (such as a string with
no port); in particular it is true on `localhost:8080`, false on
`example.com:443` and false on `no-port-host`. -/
theorem c7_isLoopback (addr : String) :
    (isLoopbackAddr addr = true ↔
      hostPortionOf addr ∈ (["localhost", "127.0.0.1", "::1"] : List String)) ∧
    isLoopbackAddr "localhost:8080" = true ∧
    isLoopbackAddr "example.com:443" = false ∧
    splitHostPort "no-port-host" = Except.error "missing port in address" ∧
    isLoopbackAddr "no-port-host" = false := by
  refine ⟨?_, by decide, by decide, by rfl, by decide⟩
  simp only [isLoopbackAddr, List.any_cons, List.any_nil, Bool.or_eq_true,
    Bool.or_false, beq_iff_eq, List.mem_cons, List.not_mem_nil, or_false]
  constructor
  · rintro (h | h | h)
    · exact Or.inl h.symm
    · exact Or.inr (Or.inl h.symm)
    · exact Or.inr (Or.inr h.symm)
  · rintro (h | h | h)
    · exact Or.inl h.symm
    · exact Or.inr (Or.inl h.symm)
    · exact Or.inr (Or.inr h.symm)

/-- Claim C8: the target rewrite sets the outgoing host to the configured
remote and the scheme to `https`, downgrading to `http` only when the
loopback classifier recognizes the configured remote host; the engine
executes exactly the request derived from that single determination (as
possibly rewritten by the provider), never revising it. -/
theorem c8_target_rewrite (params : Params) (p : Provider) (env : Env)
    (req : HReq)
    (h1 : env.newRequest req.method (outgoingURL params req) = none) :
    (serveHTTP params p env req).builtReq = some (buildOutgoing params req) ∧
    (buildOutgoing params req).urlHost = params.Remote ∧
    (buildOutgoing params req).urlScheme =
      (if isLoopbackAddr params.Remote then "http" else "https") ∧
    (serveHTTP params p env req).executedReq =
      some (p.modify params (buildOutgoing params req)) := by
  cases h2 : env.doResult (req2Of params p req) with
  | error msg =>
    rw [serve_transportErr h1 h2]
    exact ⟨rfl, rfl, rfl, rfl⟩
  | ok resp =>
    cases h3 : decodeBody env resp with
    | decodeErr msg =>
      rw [serve_decodeErr h1 h2 h3]
      exact ⟨rfl, rfl, rfl, rfl⟩
    | readErr msg =>
      rw [serve_readErr h1 h2 h3]
      exact ⟨rfl, rfl, rfl, rfl⟩
    | ok data =>
      rw [serve_ok h1 h2 h3]
      exact ⟨rfl, rfl, rfl, rfl⟩

/-- Witness for C8: the concrete remote `example.com:443` is not loopback, so
the outgoing scheme is `https`. -/
theorem c8_target_rewrite_holds :
    (serveHTTP wParams wProv wEnv wReq).builtReq =
      some (buildOutgoing wParams wReq) ∧
    (buildOutgoing wParams wReq).urlHost = wParams.Remote ∧
    (buildOutgoing wParams wReq).urlScheme =
      (if isLoopbackAddr wParams.Remote then "http" else "https") ∧
    (serveHTTP wParams wProv wEnv wReq).executedReq =
      some (wProv.modify wParams (buildOutgoing wParams wReq)) :=
  c8_target_rewrite wParams wProv wEnv wReq rfl

/-- Claim C9: the outgoing request is built with the same method and content
length as the inbound request, the fully buffered inbound body, and a header
map shared by reference with the inbound request, so any header mutation the
provider's Modify performs on the outgoing request is observable on the
inbound request's headers too; between construction and execution the
outgoing request changes only by what Modify touches. -/
theorem c9_outgoing_aliasing (params : Params) (p : Provider) (env : Env)
    (req : HReq)
    (h1 : env.newRequest req.method (outgoingURL params req) = none) :
    (buildOutgoing params req).method = req.method ∧
    (buildOutgoing params req).contentLength = req.contentLength ∧
    (buildOutgoing params req).body = req.body ∧
    (buildOutgoing params req).header = req.header ∧
    (serveHTTP params p env req).executedReq =
      some (p.modify params (buildOutgoing params req)) ∧
    (serveHTTP params p env req).inboundHeaderFinal =
      (p.modify params (buildOutgoing params req)).header := by
  cases h2 : env.doResult (req2Of params p req) with
  | error msg =>
    rw [serve_transportErr h1 h2]
    exact ⟨rfl, rfl, rfl, rfl, rfl, rfl⟩
  | ok resp =>
    cases h3 : decodeBody env resp with
    | decodeErr msg =>
      rw [serve_decodeErr h1 h2 h3]
      exact ⟨rfl, rfl, rfl, rfl, rfl, rfl⟩
    | readErr msg =>
      rw [serve_readErr h1 h2 h3]
      exact ⟨rfl, rfl, rfl, rfl, rfl, rfl⟩
    | ok data =>
      rw [serve_ok h1 h2 h3]
      exact ⟨rfl, rfl, rfl, rfl, rfl, rfl⟩

/-- Witness for C9: concrete run showing the inbound header map ends equal to
the executed outgoing request's header map. -/
theorem c9_outgoing_aliasing_holds :
    (buildOutgoing wParams wReq).method = wReq.method ∧
    (buildOutgoing wParams wReq).contentLength = wReq.contentLength ∧
    (buildOutgoing wParams wReq).body = wReq.body ∧
    (buildOutgoing wParams wReq).header = wReq.header ∧
    (serveHTTP wParams wProv wEnv wReq).executedReq =
      some (wProv.modify wParams (buildOutgoing wParams wReq)) ∧
    (serveHTTP wParams wProv wEnv wReq).inboundHeaderFinal =
      (wProv.modify wParams (buildOutgoing wParams wReq)).header :=
  c9_outgoing_aliasing wParams wProv wEnv wReq rfl

/-- Claim C10: two executions of `ServeHTTP` that differ only in the
`Params.Whatlog` value and agree on the inbound request, provider behavior
and upstream response write an identical status code and body to the inbound
caller: `Whatlog` influences only the log accumulator, never the response. -/
theorem c10_whatlog_noninterference (params1 : Params) (w : String)
    (p : Provider) (env : Env) (req : HReq)
    (hmod : ∀ r, p.modify params1 r = p.modify { params1 with Whatlog := w } r) :
    respWrites (serveHTTP { params1 with Whatlog := w } p env req).trace =
      respWrites (serveHTTP params1 p env req).trace ∧
    (serveHTTP { params1 with Whatlog := w } p env req).completeFlag =
      (serveHTTP params1 p env req).completeFlag ∧
    (serveHTTP { params1 with Whatlog := w } p env req).upstream =
      (serveHTTP params1 p env req).upstream := by
  have hurl : outgoingURL { params1 with Whatlog := w } req =
      outgoingURL params1 req := rfl
  have hreq2 : req2Of { params1 with Whatlog := w } p req =
      req2Of params1 p req := by
    simp only [req2Of]
    exact (hmod (buildOutgoing params1 req)).symm
  cases h1 : env.newRequest req.method (outgoingURL params1 req) with
  | some msg =>
    have h1b : env.newRequest req.method
        (outgoingURL { params1 with Whatlog := w } req) = some msg := by
      rw [hurl]; exact h1
    rw [serve_newReqErr h1, serve_newReqErr h1b]
    exact ⟨by simp [abortOut, respWrites, isRespWrite], rfl, rfl⟩
  | none =>
    have h1b : env.newRequest req.method
        (outgoingURL { params1 with Whatlog := w } req) = none := by
      rw [hurl]; exact h1
    cases h2 : env.doResult (req2Of params1 p req) with
    | error msg =>
      have h2b : env.doResult (req2Of { params1 with Whatlog := w } p req) =
          Except.error msg := by rw [hreq2]; exact h2
      rw [serve_transportErr h1 h2, serve_transportErr h1b h2b]
      exact ⟨by simp [abortOut, respWrites, isRespWrite], rfl, rfl⟩
    | ok resp =>
      have h2b : env.doResult (req2Of { params1 with Whatlog := w } p req) =
          Except.ok resp := by rw [hreq2]; exact h2
      cases h3 : decodeBody env resp with
      | decodeErr msg =>
        rw [serve_decodeErr h1 h2 h3, serve_decodeErr h1b h2b h3]
        exact ⟨by simp [abortOut, respWrites, isRespWrite], rfl, rfl⟩
      | readErr msg =>
        rw [serve_readErr h1 h2 h3, serve_readErr h1b h2b h3]
        exact ⟨by simp [abortOut, respWrites, isRespWrite], rfl, rfl⟩
      | ok data =>
        rw [serve_ok h1 h2 h3, serve_ok h1b h2b h3]
        refine ⟨?_, rfl, rfl⟩
        have hw : whenlogSuppresses { params1 with Whatlog := w }
            resp.StatusCode = whenlogSuppresses params1 resp.StatusCode := rfl
        cases hs : whenlogSuppresses params1 resp.StatusCode <;>
          simp [respWrites, isRespWrite, hs, hw]

/-- Witness for C10: flipping `Whatlog` from `basic` to `detailed` on a
concrete run leaves the response writes unchanged. -/
theorem c10_whatlog_noninterference_holds :
    respWrites (serveHTTP { wParams with Whatlog := "detailed" }
        wProv wEnv wReq).trace =
      respWrites (serveHTTP wParams wProv wEnv wReq).trace ∧
    (serveHTTP { wParams with Whatlog := "detailed" } wProv wEnv
        wReq).completeFlag =
      (serveHTTP wParams wProv wEnv wReq).completeFlag ∧
    (serveHTTP { wParams with Whatlog := "detailed" } wProv wEnv
        wReq).upstream =
      (serveHTTP wParams wProv wEnv wReq).upstream :=
  c10_whatlog_noninterference wParams "detailed" wProv wEnv wReq
    (fun _ => rfl)

end Abc
